import Mathlib

/-!
Verification development for the proto-ai-backend image upload service.

The definitions below are a shallow embedding of the TypeScript source:

* the chunked-upload controller (`uploadChunk`, `getSessionStatus`,
  `cancelSession` in the upload controller) together with the JavaScript
  array semantics it relies on (sparse arrays, `Array.prototype.every`
  skipping holes, assignment past the end extending the array);
* the request validation middleware (`validateChunkUpload`);
* the image validation pipeline (`validateImage`, `calculateBlurScore`,
  `detectFaces`, `checkForDuplicates`, `getImageMetadata`);
* the single-shot upload controller (`uploadImage`);
* the queue service defaults (`defaultJobOptions`).

External capabilities (the sharp codec, AWS Rekognition, S3, Prisma, the
base64 transport and the crypto digest) are modelled as explicit
environment parameters holding the outcome of each external call, so every
definition is executable and the control flow of the source is embedded
faithfully.
-/

deriving instance DecidableEq for Except

namespace ProtoAI

/-- Raw bytes of a buffer, one natural number per byte. -/
abbrev Bytes := List Nat

/-- JavaScript toLowerCase on the ASCII names and formats handled here:
characterwise lowering. -/
def lowerString (s : String) : String := String.mk (s.data.map Char.toLower)

/-- JavaScript endsWith: the suffix test on the character sequence. -/
def strEndsWith (s suffix : String) : Bool := suffix.data.isSuffixOf s.data

/-! ## Chunked upload: data model (upload controller in the source) -/

/-- Status of an upload session: IN_PROGRESS, COMPLETED, FAILED or EXPIRED. -/
inductive SessionStatus where
  | inProgress
  | completedS
  | failedS
  | expiredS
deriving DecidableEq, Repr

/-- A session is terminal when it is no longer IN_PROGRESS. -/
def SessionStatus.isTerminal : SessionStatus → Bool
  | .inProgress => false
  | _ => true

/-- The uploadSession row: id, filename, totalChunks, uploadedChunks, status.
The created/expiry timestamps do not influence any claim settled here and are
omitted from the row. -/
structure UploadSession where
  id : String
  filename : String
  totalChunks : Nat
  uploadedChunks : Nat
  status : SessionStatus
deriving DecidableEq, Repr

/-- A JavaScript array of chunk buffers. `none` is a hole (an index that was
never assigned); elements that were assigned always hold a Buffer, which in
JavaScript is never the value undefined. -/
abbrev ChunkArray := List (Option Bytes)

/-- JavaScript `new Array(n)`: a sparse array of length n consisting of holes. -/
def newSparseArray (n : Nat) : ChunkArray := List.replicate n none

/-- JavaScript assignment `a[i] = b` on an array: writes in place when
`i < a.length`, otherwise extends the array with holes up to index i and
sets `a[i]`, making the length `i + 1`. -/
def jsArraySet (l : ChunkArray) (i : Nat) (b : Bytes) : ChunkArray :=
  if i < l.length then l.set i (some b)
  else l ++ List.replicate (i - l.length) none ++ [some b]

/-- JavaScript `Array.prototype.every(p)`: the callback is invoked only on
indices that are present; holes of a sparse array are skipped. -/
def jsEvery (l : ChunkArray) (p : Bytes → Bool) : Bool :=
  l.all fun c =>
    match c with
    | none => true
    | some b => p b

/-- The callback `(chunk) => chunk !== undefined` from the source. A present
element is always a Buffer and a Buffer is never undefined, so the callback
holds of every present element. -/
def chunkNotUndefined (_ : Bytes) : Bool := true

/-- Embedding of `Buffer.concat(list)` over the chunk array: concatenates the buffers in
index order; reading a hole yields undefined, which is not a Buffer, so
`Buffer.concat` throws a TypeError in that case. -/
def jsBufferConcat : ChunkArray → Except Unit Bytes
  | [] => .ok []
  | none :: _ => .error ()
  | some b :: rest =>
    match jsBufferConcat rest with
    | .ok tail => .ok (b ++ tail)
    | .error e => .error e

/-- The intended completion predicate (from the spec): every chunk index in
`[0, totalChunks)` has been received at least once. -/
def trulyAllReceived (chunks : ChunkArray) (totalChunks : Nat) : Bool :=
  (List.range totalChunks).all fun i => (chunks.getD i none).isSome

/-- The number of distinct chunk indices received so far. -/
def countReceived (chunks : ChunkArray) : Nat :=
  chunks.countP Option.isSome

/-- The state the controller mutates: the uploadSession rows in the database
and the in-memory `chunkStorage` map keyed by session id. -/
structure DbState where
  sessions : List UploadSession
  chunkStorage : List (String × ChunkArray)
deriving DecidableEq, Repr

/-- Embedding of `prisma.uploadSession.findUnique` by id. -/
def DbState.findSession (st : DbState) (sid : String) : Option UploadSession :=
  st.sessions.find? fun s => s.id == sid

/-- Embedding of `chunkStorage.get(sid)`. -/
def DbState.getChunks (st : DbState) (sid : String) : Option ChunkArray :=
  (st.chunkStorage.find? fun p => p.1 == sid).map Prod.snd

/-- Embedding of `chunkStorage.set(sid, c)`: replace the entry when the key is present,
append it otherwise. -/
def DbState.setChunks (st : DbState) (sid : String) (c : ChunkArray) : DbState :=
  if (st.chunkStorage.find? fun p => p.1 == sid).isSome then
    { st with chunkStorage := st.chunkStorage.map fun p => if p.1 == sid then (sid, c) else p }
  else
    { st with chunkStorage := st.chunkStorage ++ [(sid, c)] }

/-- Embedding of `prisma.uploadSession.update` by id with an update function. -/
def DbState.updateSession (st : DbState) (sid : String) (f : UploadSession → UploadSession) :
    DbState :=
  { st with sessions := st.sessions.map fun s => if s.id == sid then f s else s }

/-- The chunk upload request body. `chunkData` carries the bytes that the
base64 payload decodes to; the base64 transport itself is external. The
integer fields are Int because the client may send any integer and the
middleware bounds are what constrain them. -/
structure ChunkRequest where
  sessionId : Option String
  filename : String
  mimeType : String
  totalChunks : Int
  chunkIndex : Int
  chunkData : Bytes
deriving DecidableEq, Repr

/-- The mimeType pattern of the middleware: `^image\/(jpeg|jpg|png|heic)$`,
case-insensitive. -/
def mimeTypeOk (m : String) : Bool :=
  ["image/jpeg", "image/jpg", "image/png", "image/heic"].contains (lowerString m)

/-- The `validateChunkUpload` middleware chain from the source: sessionId is
an optional string of length 1..255, filename a string of length 1..255,
mimeType matches the image pattern, totalChunks is an integer in 1..1000,
chunkIndex is an integer that is at least 0 (no upper bound is checked), and
chunkData is a non-empty payload. -/
def validateChunkUpload (r : ChunkRequest) : Bool :=
  (match r.sessionId with
   | none => true
   | some s => decide (1 ≤ s.length) && decide (s.length ≤ 255)) &&
  (decide (1 ≤ r.filename.length) && decide (r.filename.length ≤ 255)) &&
  mimeTypeOk r.mimeType &&
  (decide ((1 : Int) ≤ r.totalChunks) && decide (r.totalChunks ≤ 1000)) &&
  decide ((0 : Int) ≤ r.chunkIndex) &&
  decide (1 ≤ r.chunkData.length)

/-- Result of the part of `uploadChunk` that runs on every request: the
session lookup or creation, the chunk store, the progress update and the
completion check (source lines 727..762 of the upload controller). The
completion branch continues into external validation and storage calls and
is cut here, after the decision. -/
structure ChunkCoreResult where
  state : DbState
  sessionId : String
  chunks : ChunkArray
  allChunksReceived : Bool
deriving DecidableEq, Repr

/-- The create-or-get step of `uploadChunk`: look the session up when a
sessionId was supplied; when none was found (unknown id, or no id supplied)
create a fresh row with the filename and totalChunks of the request (status
IN_PROGRESS and uploadedChunks 0 are the schema defaults; the schema itself
is generated code). `freshId` is the identity the database mints for a
created row. Returns the session used and the resulting state. -/
def resolveSession (st : DbState) (r : ChunkRequest) (freshId : String) :
    UploadSession × DbState :=
  let found :=
    match r.sessionId with
    | some sid => st.findSession sid
    | none => none
  match found with
  | some s => (s, st)
  | none =>
    let s : UploadSession :=
      { id := freshId, filename := r.filename, totalChunks := r.totalChunks.toNat,
        uploadedChunks := 0, status := .inProgress }
    (s, { st with sessions := st.sessions ++ [s] })

/-- The chunk-store step of `uploadChunk`: ensure `chunkStorage` has an
array of `tot` holes for the session, then write the decoded chunk at
`idx` (JavaScript assignment, so an index past the end extends the array).
Returns the resulting state and the chunk array of the session. -/
def storeChunk (st : DbState) (sid : String) (tot idx : Nat) (data : Bytes) :
    DbState × ChunkArray :=
  let chunks0 :=
    match st.getChunks sid with
    | some c => c
    | none => newSparseArray tot
  let chunks1 := jsArraySet chunks0 idx data
  (st.setChunks sid chunks1, chunks1)

/-- Embedding of `uploadChunk` up to the completion decision: create or get
the session, store the chunk, set the row field
`uploadedChunks := chunkIndex + 1`, and finally evaluate
`chunks.every((chunk) => chunk !== undefined)`. -/
def uploadChunkCore (st : DbState) (r : ChunkRequest) (freshId : String) : ChunkCoreResult :=
  let rs := resolveSession st r freshId
  let sc := storeChunk rs.2 rs.1.id r.totalChunks.toNat r.chunkIndex.toNat r.chunkData
  let st3 := sc.1.updateSession rs.1.id fun s => { s with uploadedChunks := r.chunkIndex.toNat + 1 }
  { state := st3, sessionId := rs.1.id, chunks := sc.2,
    allChunksReceived := jsEvery sc.2 chunkNotUndefined }

/-- The route runs the `validateChunkUpload` middleware before the
controller: a request that fails validation receives a 400 response and the
controller, hence any state mutation, never runs. Returns the resulting
state and whether the controller ran. -/
def processChunkRequest (st : DbState) (r : ChunkRequest) (freshId : String) :
    DbState × Bool :=
  if validateChunkUpload r then ((uploadChunkCore st r freshId).state, true)
  else (st, false)

/-! ## Validation pipeline (imageProcessingService.ts) -/

/-- The dimension and size bounds of `imageConfig` (config/env.ts). The
environment defaults are 300, 300, 4000, 4000 and 10485760. -/
structure ImageConfig where
  minWidth : Nat
  minHeight : Nat
  maxWidth : Nat
  maxHeight : Nat
  maxFileSize : Nat
deriving DecidableEq, Repr

/-- The `imageConfig` values when no environment overrides are set. -/
def defaultImageConfig : ImageConfig :=
  { minWidth := 300, minHeight := 300, maxWidth := 4000, maxHeight := 4000,
    maxFileSize := 10485760 }

/-- The rejection reasons `validateImage` pushes, one constructor per push
site of the source (the source strings interpolate the measured values;
the constructor stands for the string of its site):
`tooSmall` for the minimum-size string, `tooLarge` for the maximum-size
string, `invalidFormat` for the allow-list string, `fileTooLarge` for the
byte-size string, `blurry` for the blur string, `noFace`, `multipleFaces`,
`faceTooSmall`, `faceTooLarge` for the four face strings,
`faceDetectionUnavailable` for the face-detection-service string of the
catch handler, and `processingError` for the top-level catch string. -/
inductive VReason where
  | tooSmall
  | tooLarge
  | invalidFormat
  | fileTooLarge
  | blurry
  | noFace
  | multipleFaces
  | faceTooSmall
  | faceTooLarge
  | faceDetectionUnavailable
  | processingError (msg : String)
deriving DecidableEq, Repr

/-- What `sharp(buffer).metadata()` yields when it succeeds: the width,
height and format fields, each possibly missing (the source applies
`|| 0` and `|| "unknown"` defaults to them). -/
structure SharpMeta where
  width : Option Nat
  height : Option Nat
  format : Option String
deriving DecidableEq, Repr

/-- Outcomes of the external calls `validateImage` makes for one buffer:
the sharp metadata probe, the grayscale decode plus Laplacian-variance
arithmetic of `calculateBlurScore` (floating point, abstracted to its
rational outcome), and the Rekognition DetectFaces call returning the
bounding boxes as (Width, Height) fractions. -/
structure ImageEnv where
  meta : Except String SharpMeta
  blurCompute : Except String ℚ
  rekognition : Except String (List (ℚ × ℚ))
deriving Repr

/-- Face detection summary: the number of faces and the maximal bounding
box area fraction. -/
structure FaceData where
  faceCount : Nat
  faceSize : ℚ
deriving DecidableEq, Repr

/-- Embedding of `detectFaces`: on success it counts the returned faces and
takes the maximum of Width times Height over the bounding boxes (starting
from 0); the catch handler swallows any provider error and returns
faceCount 0 and faceSize 0 instead of rethrowing. -/
def detectFaces (env : ImageEnv) : FaceData :=
  match env.rekognition with
  | .ok boxes =>
    { faceCount := boxes.length,
      faceSize := boxes.foldl (fun m b => max m (b.1 * b.2)) 0 }
  | .error _ => { faceCount := 0, faceSize := 0 }

/-- Embedding of `calculateBlurScore`: the whole body is wrapped in a try
whose catch returns 0, so a failing grayscale decode or metadata probe
yields the score 0 rather than an exception. -/
def calculateBlurScore (env : ImageEnv) : ℚ :=
  match env.blurCompute with
  | .ok score => score
  | .error _ => 0

/-- The metadata part of a ValidationResult (types/index.ts): width, height,
byte size, format, and the optional blurScore, faceCount, faceSize and hash
fields, absent unless the pipeline sets them. -/
structure ImageMetadata where
  width : Nat
  height : Nat
  size : Nat
  format : String
  blurScore : Option ℚ := none
  faceCount : Option Nat := none
  faceSize : Option ℚ := none
  hash : Option String := none
deriving DecidableEq, Repr

/-- A ValidationResult (types/index.ts): verdict, reasons, metadata. -/
structure ValidationResult where
  isValid : Bool
  errors : List VReason
  metadata : ImageMetadata
deriving DecidableEq, Repr

/-- The format allow-list of `validateImage`. -/
def allowedFormats : List String := ["jpeg", "jpg", "png", "heic"]

/-- Embedding of `validateImage`. `sha` is the crypto digest primitive used
by `generateImageHash` (sha256 hex of the raw buffer).

From the source: a failing metadata probe lands in the top-level catch,
which returns an invalid result carrying the initial zero metadata. On
success the pipeline pushes, in order: the minimum-dimension reason, the
maximum-dimension reason, the allow-list reason; when the decoded format is
heic or heif it returns early with the reasons so far and plain metadata
(no blurScore, faceCount, faceSize or hash fields); otherwise it pushes the
file-size reason, computes the blur score (`calculateBlurScore` never
throws, its catch returns 0, so the try around it in `validateImage` that
would assume a score of 150 cannot fire), then the face data (`detectFaces`
never throws either, so the catch that would push
`faceDetectionUnavailable` cannot fire), pushes the applicable blur and
face reasons, sets the hash, and the verdict is the emptiness of the
accumulated reasons. -/
def validateImage (cfg : ImageConfig) (sha : Bytes → String) (env : ImageEnv)
    (buffer : Bytes) : ValidationResult :=
  match env.meta with
  | .error e =>
    { isValid := false, errors := [.processingError e],
      metadata := { width := 0, height := 0, size := 0, format := "unknown" } }
  | .ok m =>
    let w := m.width.getD 0
    let h := m.height.getD 0
    let fmt := m.format.getD "unknown"
    let size := buffer.length
    let e1 : List VReason :=
      if w < cfg.minWidth || h < cfg.minHeight then [.tooSmall] else []
    let e2 : List VReason :=
      if w > cfg.maxWidth || h > cfg.maxHeight then [.tooLarge] else []
    let e3 : List VReason :=
      if !(allowedFormats.contains (lowerString fmt)) then [.invalidFormat] else []
    let errs := e1 ++ e2 ++ e3
    if lowerString fmt == "heic" || lowerString fmt == "heif" then
      { isValid := errs.isEmpty, errors := errs,
        metadata := { width := w, height := h, size := size, format := fmt } }
    else
      let e4 : List VReason :=
        if size > cfg.maxFileSize then [.fileTooLarge] else []
      let blurScore := calculateBlurScore env
      let e5 : List VReason := if blurScore < 150 then [.blurry] else []
      let fd := detectFaces env
      let e6 : List VReason :=
        if fd.faceCount == 0 then [.noFace]
        else if fd.faceCount > 1 then [.multipleFaces]
        else if fd.faceSize < (15 : ℚ) / 100 then [.faceTooSmall]
        else if fd.faceSize > (8 : ℚ) / 10 then [.faceTooLarge]
        else []
      let allErrs := errs ++ e4 ++ e5 ++ e6
      { isValid := allErrs.isEmpty, errors := allErrs,
        metadata := { width := w, height := h, size := size, format := fmt,
                      blurScore := some blurScore, faceCount := some fd.faceCount,
                      faceSize := some fd.faceSize, hash := some (sha buffer) } }

/-- Embedding of `checkForDuplicates`: `db` is the Prisma lookup
`image.findFirst(\x7b where: \x7b hash \x7d \x7d)` returning the matching
record id when one exists; the result is the truthiness of the record, and
the catch handler returns false when the lookup throws. -/
def checkForDuplicates (db : String → Except String (Option String)) (hash : String) : Bool :=
  match db hash with
  | .ok existing => existing.isSome
  | .error _ => false

/-- Embedding of `getImageMetadata`: on success the width, height and format
with their `|| 0` and `|| "unknown"` defaults applied; a sharp failure is
rethrown as an error. -/
def getImageMetadata (env : ImageEnv) : Except String (Nat × Nat × String) :=
  match env.meta with
  | .ok m => .ok (m.width.getD 0, m.height.getD 0, m.format.getD "unknown")
  | .error e => .error ("Failed to get image metadata: " ++ e)

/-! ## Queue service defaults (queueService.ts) -/

/-- Embedding of `Number.parseInt` restricted to the all-digit strings used by the queue
defaults. -/
def jsParseIntNat (s : String) : Option Nat :=
  if !s.data.isEmpty && s.data.all Char.isDigit then
    some (s.data.foldl (fun n c => n * 10 + (c.toNat - 48)) 0)
  else none

/-- The backoff part of the BullMQ JobsOptions built by the source. -/
structure BackoffOptions where
  kind : String
  delay : Option Nat
deriving DecidableEq, Repr

/-- The BullMQ JobsOptions built by `defaultJobOptions`. -/
structure JobsOptions where
  attempts : Option Nat
  backoff : BackoffOptions
  removeOnComplete : Nat
  removeOnFail : Nat
deriving DecidableEq, Repr

/-- Embedding of `defaultJobOptions`: attempts parses QUEUE_MAX_ATTEMPTS
defaulting to the string 3, the backoff delay parses QUEUE_BACKOFF_MS
defaulting to the string 1000, the backoff type is exponential. The two
arguments are the environment variables, absent when unset. -/
def defaultJobOptions (envMaxAttempts envBackoffMs : Option String) : JobsOptions :=
  let attempts := jsParseIntNat (envMaxAttempts.getD "3")
  let backoffMs := jsParseIntNat (envBackoffMs.getD "1000")
  { attempts := attempts,
    backoff := { kind := "exponential", delay := backoffMs },
    removeOnComplete := 1000, removeOnFail := 1000 }

/-- Modelled from the spec: the retry delay of the exponential backoff
policy the queue library applies, delay = base * 2 ^ (attempt - 1) before
retry attempt k (section 4.4 of the spec); the library code itself is not
part of this repository. -/
def retryDelay (base k : Nat) : Nat := base * 2 ^ (k - 1)

/-- State of one job under the retry loop: attempts made so far and whether
the job has become terminal-failed. -/
structure JobRun where
  attemptsMade : Nat
  terminalFailed : Bool
deriving DecidableEq, Repr

/-- Modelled from the spec: one failing attempt of the queue library worker
loop (section 4.4): on handler failure the job is rescheduled while
attempts remain and marked terminal-failed once the attempt count reaches
the maximum; the library code itself is not part of this repository. -/
def failAttempt (maxAttempts : Nat) (j : JobRun) : JobRun :=
  if j.terminalFailed then j
  else { attemptsMade := j.attemptsMade + 1,
         terminalFailed := decide (maxAttempts ≤ j.attemptsMade + 1) }

/-- The job state after n failing attempts, starting from a fresh job. -/
def runFailures (maxAttempts n : Nat) : JobRun :=
  (failAttempt maxAttempts)^[n] { attemptsMade := 0, terminalFailed := false }

/-! ## Single-shot upload (image controller, `uploadImage`) -/

/-- The multer file of the upload request: declared MIME type, original
filename and the raw bytes. -/
structure UploadFile where
  mimetype : String
  originalname : String
  buffer : Bytes
deriving DecidableEq, Repr

/-- The outcome of the `convertToFormat` call. Modelled from the spec: the
conversion capability (services/image-processing.service, not under src,
only its callers are) either throws, or returns a buffer; the caller
compares that buffer with the input by reference (`processedBuffer !==
buffer`), so the outcome is modelled as: `.error` when the call throws,
`.ok none` when it returns the very input buffer (the fallback the sibling
`convertHeicToJpeg` in src also uses), and `.ok (some b)` when it returns a
distinct converted buffer b. -/
abbrev ConvertOutcome := Except String (Option Bytes)

/-- True exactly when the conversion produced a buffer distinct from its
input, which is the only case where the source rewrites `finalMimeType`. -/
def convertDistinct : ConvertOutcome → Bool
  | .ok (some _) => true
  | _ => false

/-- Outcomes of the external calls `uploadImage` makes: the HEIC conversion,
the image pipeline externals for the processed buffer, and the S3 put. -/
structure UploadEnv where
  convert : ConvertOutcome
  imageEnv : ImageEnv
  s3Upload : Except String Unit
deriving Repr

/-- The persisted image statuses (PENDING, PROCESSING, VALIDATED, REJECTED,
ERROR). -/
inductive ImgStatus where
  | pending
  | processing
  | validatedS
  | rejectedS
  | errorS
deriving DecidableEq, Repr

/-- The data of the `prisma.image.create` call in `uploadImage`. -/
structure ImageRecordData where
  filename : String
  originalName : String
  mimeType : String
  size : Nat
  width : Nat
  height : Nat
  s3Key : String
  status : ImgStatus
  hash : Option String
  blurScore : Option ℚ
  faceCount : Option Nat
  faceSize : Option ℚ
deriving DecidableEq, Repr

/-- The response of the upload endpoint, reduced to its decisive shapes:
a 201 with the created record, a 400 for a failed validation carrying the
reasons, a 400 for a detected duplicate, or a 500 from the outer catch. -/
inductive UploadResponse where
  | created (record : ImageRecordData)
  | validationFailed (errors : List VReason)
  | duplicate
  | serverError (msg : String)
deriving DecidableEq, Repr

/-- The observable outcome of `uploadImage`: the response, plus whether the
full `validateImage` pipeline was invoked (as opposed to the hard-coded
accepting result of the HEIC branch). -/
structure UploadOutcome where
  response : UploadResponse
  ranFullValidation : Bool
deriving DecidableEq, Repr

/-- The first HEIC test of `uploadImage`, guarding the conversion attempt:
the declared MIME type is image/heic, or the lowercased original filename
ends in .heic. -/
def heicTrigger (file : UploadFile) : Bool :=
  file.mimetype == "image/heic" || strEndsWith (lowerString file.originalname) ".heic"

/-- The processed buffer and final MIME type after the conversion attempt:
when the HEIC test holds the source converts to png when the query says so
and jpeg otherwise, adopts the converted buffer, and rewrites the MIME type
only if the returned buffer differs from the input by reference; a throwing
conversion is caught and the original buffer and MIME type are kept. -/
def afterConversion (file : UploadFile) (convert : ConvertOutcome) (queryToPng : Bool) :
    Bytes × String :=
  if heicTrigger file then
    match convert with
    | .ok (some b) => (b, if queryToPng then "image/png" else "image/jpeg")
    | .ok none => (file.buffer, file.mimetype)
    | .error _ => (file.buffer, file.mimetype)
  else (file.buffer, file.mimetype)

/-- The second HEIC test of `uploadImage`, deciding whether to skip the
validation pipeline (and later whether to use placeholder dimensions): the
final MIME type is image/heic, or the lowercased original filename ends in
.heic. -/
def skipAdvanced (file : UploadFile) (finalMime : String) : Bool :=
  finalMime == "image/heic" || strEndsWith (lowerString file.originalname) ".heic"

/-- Embedding of `uploadImage`.

From the source: attempt the HEIC conversion; when the (post-conversion)
HEIC test holds, use a hard-coded accepting ValidationResult with metadata
width 1920, height 1080, the processed size and format heic, otherwise run
`validateImage` on the processed buffer; reject with 400 when the verdict
is invalid; run the duplicate check only when a hash is present in the
result metadata; upload to S3 (a throw lands in the outer catch as a 500);
take the dimensions from the placeholder 1920 by 1080 when the HEIC test
holds and from `getImageMetadata` otherwise (whose throw also lands in the
outer catch); and create the image row with status VALIDATED, the metadata
hash, blurScore, faceCount and faceSize fields of the validation result,
and an s3Key and filename prefixed by the timestamp. The Redis caching of
the validation result has its own inner catch and no effect on the
response, and is not part of the outcome. -/
def uploadImage (cfg : ImageConfig) (sha : Bytes → String)
    (db : String → Except String (Option String)) (env : UploadEnv)
    (file : UploadFile) (queryToPng : Bool) (timestamp : Nat) : UploadOutcome :=
  let pc := afterConversion file env.convert queryToPng
  let processed := pc.1
  let finalMime := pc.2
  let skip := skipAdvanced file finalMime
  let validationResult : ValidationResult :=
    if skip then
      { isValid := true, errors := [],
        metadata := { width := 1920, height := 1080, size := processed.length,
                      format := "heic" } }
    else validateImage cfg sha env.imageEnv processed
  let ranFull := !skip
  if !validationResult.isValid then
    { response := .validationFailed validationResult.errors, ranFullValidation := ranFull }
  else
    let isDuplicate :=
      match validationResult.metadata.hash with
      | some h => checkForDuplicates db h
      | none => false
    if isDuplicate then
      { response := .duplicate, ranFullValidation := ranFull }
    else
      match env.s3Upload with
      | .error e => { response := .serverError e, ranFullValidation := ranFull }
      | .ok _ =>
        let imageInfo : Except String (Nat × Nat × String) :=
          if skip then .ok (1920, 1080, "heic") else getImageMetadata env.imageEnv
        match imageInfo with
        | .error e => { response := .serverError e, ranFullValidation := ranFull }
        | .ok info =>
          { response := .created
              { filename := toString timestamp ++ "-" ++ file.originalname,
                originalName := file.originalname,
                mimeType := finalMime,
                size := processed.length,
                width := info.1,
                height := info.2.1,
                s3Key := "images/" ++ toString timestamp ++ "-" ++ file.originalname,
                status := .validatedS,
                hash := validationResult.metadata.hash,
                blurScore := validationResult.metadata.blurScore,
                faceCount := validationResult.metadata.faceCount,
                faceSize := validationResult.metadata.faceSize },
            ranFullValidation := ranFull }

/-! ## Concrete instances used by the theorems below -/

/-- The state with no sessions and no stored chunks. -/
def emptyDb : DbState := { sessions := [], chunkStorage := [] }

/-- A fresh-session request for chunk 1 of 3. -/
def reqIdx1of3 : ChunkRequest :=
  { sessionId := none, filename := "a.png", mimeType := "image/png",
    totalChunks := 3, chunkIndex := 1, chunkData := [7, 7] }

/-- A fresh-session request for chunk 2 of 3. -/
def reqIdx2of3 : ChunkRequest := { reqIdx1of3 with chunkIndex := 2 }

/-- A request carrying a sessionId that no session has. -/
def reqGhost : ChunkRequest := { reqIdx1of3 with sessionId := some "ghost" }

/-- A request whose chunkIndex 5 lies outside [0, totalChunks) for
totalChunks 2. -/
def reqIdx5of2 : ChunkRequest :=
  { sessionId := none, filename := "a.png", mimeType := "image/png",
    totalChunks := 2, chunkIndex := 5, chunkData := [1] }

/-- A request with a negative chunkIndex. -/
def reqNegIdx : ChunkRequest := { reqIdx1of3 with chunkIndex := -1 }

/-- A state holding one COMPLETED (terminal) session t1. -/
def terminalDb : DbState :=
  { sessions := [{ id := "t1", filename := "b.png", totalChunks := 2,
                   uploadedChunks := 1, status := .completedS }],
    chunkStorage := [] }

/-- A request addressed to the terminal session t1. -/
def reqToT1 : ChunkRequest := { reqIdx1of3 with sessionId := some "t1" }

/-- A fixed digest primitive for concrete runs. -/
def shaFixed : Bytes → String := fun _ => "d0d0"

/-- An environment whose metadata probe reports a 1000 by 800 heic image. -/
def heicMetaEnv : ImageEnv :=
  { meta := .ok { width := some 1000, height := some 800, format := some "heic" },
    blurCompute := .ok 500, rekognition := .ok [(1/2, 1/2)] }

/-- An environment for a 1000 by 800 jpeg whose Rekognition call fails. -/
def faceErrEnv : ImageEnv :=
  { meta := .ok { width := some 1000, height := some 800, format := some "jpeg" },
    blurCompute := .ok 500, rekognition := .error "rekognition down" }

/-- An environment for a 1000 by 800 jpeg whose blur computation fails and
whose Rekognition call returns one face covering 49 percent of the frame. -/
def blurErrEnv : ImageEnv :=
  { meta := .ok { width := some 1000, height := some 800, format := some "jpeg" },
    blurCompute := .error "sharp failed", rekognition := .ok [(7/10, 7/10)] }

/-- An environment for a 1000 by 800 jpeg where every probe succeeds. -/
def okImageEnv : ImageEnv :=
  { meta := .ok { width := some 1000, height := some 800, format := some "jpeg" },
    blurCompute := .ok 500, rekognition := .ok [(7/10, 7/10)] }

/-- A duplicate-index lookup that finds nothing. -/
def noDupDb : String → Except String (Option String) := fun _ => .ok none

/-- A file declared image/heic whose name does not end in .heic. -/
def fileHeicMimeJpgName : UploadFile :=
  { mimetype := "image/heic", originalname := "photo.jpg", buffer := [1] }

/-- An upload environment whose conversion returns a distinct buffer and
whose pipeline externals then reject the converted buffer (the Rekognition
call fails). -/
def distinctConvertEnv : UploadEnv :=
  { convert := .ok (some [2, 2]), imageEnv := faceErrEnv, s3Upload := .ok () }

/-- A file whose original name ends in .heic (after lowercasing). -/
def fileHeicName : UploadFile :=
  { mimetype := "image/jpeg", originalname := "IMG.HEIC", buffer := [1] }

/-- An upload environment whose conversion throws. -/
def failConvertEnv : UploadEnv :=
  { convert := .error "no heic support", imageEnv := okImageEnv, s3Upload := .ok () }

/-! ## Helper lemmas on the state operations -/

theorem find?_map_update (l : List UploadSession) (sid : String)
    (f : UploadSession → UploadSession) (hf : ∀ s, (f s).id = s.id) :
    ((l.map fun s => if s.id == sid then f s else s).find? fun s => s.id == sid) =
      (l.find? fun s => s.id == sid).map f := by
  induction l with
  | nil => rfl
  | cons s t ih =>
    by_cases h : (s.id == sid) = true
    · rw [List.map_cons, if_pos h, List.find?_cons, List.find?_cons, hf s, h]
      rfl
    · have hb : (s.id == sid) = false := by simpa using h
      rw [List.map_cons, if_neg h, List.find?_cons, List.find?_cons, hb]
      exact ih

theorem findSession_updateSession (st : DbState) (sid : String)
    (f : UploadSession → UploadSession) (hf : ∀ s, (f s).id = s.id) :
    (st.updateSession sid f).findSession sid = (st.findSession sid).map f :=
  find?_map_update st.sessions sid f hf

theorem find?_set_list (l : List (String × ChunkArray)) (sid : String) (c : ChunkArray)
    (h : (l.find? fun p => p.1 == sid).isSome = true) :
    ((l.map fun p => if p.1 == sid then (sid, c) else p).find? fun p => p.1 == sid) =
      some (sid, c) := by
  induction l with
  | nil => simp [List.find?] at h
  | cons p t ih =>
    by_cases hp : (p.1 == sid) = true
    · rw [List.map_cons, if_pos hp, List.find?_cons]
      simp
    · have hb : (p.1 == sid) = false := by simpa using hp
      rw [List.map_cons, if_neg hp, List.find?_cons, hb]
      rw [List.find?_cons, hb] at h
      exact ih h

theorem getChunks_setChunks_self (st : DbState) (sid : String) (c : ChunkArray) :
    (st.setChunks sid c).getChunks sid = some c := by
  unfold DbState.setChunks
  cases hfind : st.chunkStorage.find? fun p => p.1 == sid with
  | some q =>
    rw [if_pos (by rfl)]
    unfold DbState.getChunks
    rw [find?_set_list st.chunkStorage sid c (by rw [hfind]; rfl)]
    rfl
  | none =>
    rw [if_neg (by simp)]
    unfold DbState.getChunks
    rw [List.find?_append, hfind, Option.none_or]
    simp [List.find?_cons]

theorem setChunks_sessions (st : DbState) (sid : String) (c : ChunkArray) :
    (st.setChunks sid c).sessions = st.sessions := by
  unfold DbState.setChunks
  split <;> rfl

theorem storeChunk_getChunks (st : DbState) (sid : String) (tot idx : Nat) (data : Bytes) :
    (storeChunk st sid tot idx data).1.getChunks sid = some (storeChunk st sid tot idx data).2 :=
  getChunks_setChunks_self ..

theorem storeChunk_sessions (st : DbState) (sid : String) (tot idx : Nat) (data : Bytes) :
    (storeChunk st sid tot idx data).1.sessions = st.sessions :=
  setChunks_sessions ..

theorem storeChunk_chunks (st : DbState) (sid : String) (tot idx : Nat) (data : Bytes) :
    (storeChunk st sid tot idx data).2 =
      jsArraySet ((st.getChunks sid).getD (newSparseArray tot)) idx data := by
  unfold storeChunk
  cases st.getChunks sid <;> rfl

theorem findSession_eq (st : DbState) (sid : String) :
    st.findSession sid = st.sessions.find? fun s => s.id == sid := rfl

theorem getChunks_updateSession (st : DbState) (sid q : String)
    (f : UploadSession → UploadSession) :
    (st.updateSession sid f).getChunks q = st.getChunks q := rfl

/-! ## Claim theorems -/

/-- C1: the claim says the session is detected as complete exactly when
every chunk index in [0, totalChunks) has been received. In the code,
`chunks.every((chunk) => chunk !== undefined)` runs on a sparse array and
skips holes, so after a single append (index 1 of 3 here) the completion
check already succeeds although indices 0 and 2 were never received, and
the reassembly `Buffer.concat` then throws on the holes. -/
theorem chunk_completion_detected_after_single_chunk :
    (uploadChunkCore emptyDb reqIdx1of3 "s1").allChunksReceived = true ∧
    trulyAllReceived (uploadChunkCore emptyDb reqIdx1of3 "s1").chunks 3 = false ∧
    countReceived (uploadChunkCore emptyDb reqIdx1of3 "s1").chunks = 1 ∧
    jsBufferConcat (uploadChunkCore emptyDb reqIdx1of3 "s1").chunks = .error () := by
  decide

/-- C2: the claim says uploadedChunks equals the number of distinct chunk
indices received and never exceeds totalChunks. The code records
`uploadedChunks := chunkIndex + 1`: appending index 2 of 3 first records 3
while only one distinct index was received, and appending index 5 with
totalChunks 2 records 6, exceeding totalChunks. -/
theorem uploadedChunks_records_index_not_count :
    ((uploadChunkCore emptyDb reqIdx2of3 "s1").state.findSession "s1").map
        UploadSession.uploadedChunks = some 3 ∧
    countReceived (uploadChunkCore emptyDb reqIdx2of3 "s1").chunks = 1 ∧
    ((uploadChunkCore emptyDb reqIdx5of2 "s2").state.findSession "s2").map
        UploadSession.uploadedChunks = some 6 := by
  decide

/-- C5 counterexample: the claim says the content hash is populated in the
result metadata for every buffer, including HEIC buffers taking the early
exit. For a decodable heic buffer the early exit returns metadata without
the hash field. -/
theorem heic_early_exit_hash_missing :
    (validateImage defaultImageConfig shaFixed heicMetaEnv [1, 2, 3]).metadata.hash = none ∧
    (validateImage defaultImageConfig shaFixed heicMetaEnv [1, 2, 3]).isValid = true := by
  decide

/-- C5 amended: the content hash is populated, with the digest of the raw
buffer, exactly when the metadata probe succeeds and the decoded format is
neither heic nor heif; the HEIC/HEIF early exit and the decode-error path
return metadata without a hash. -/
theorem hash_populated_iff_main_pipeline (cfg : ImageConfig) (sha : Bytes → String)
    (env : ImageEnv) (buffer : Bytes) :
    (validateImage cfg sha env buffer).metadata.hash =
      match env.meta with
      | .error _ => none
      | .ok m =>
        if lowerString (m.format.getD "unknown") == "heic"
            || lowerString (m.format.getD "unknown") == "heif" then none
        else some (sha buffer) := by
  cases hm : env.meta with
  | error e => simp [validateImage, hm]
  | ok m =>
    simp only [validateImage, hm]
    by_cases hh : (lowerString (m.format.getD "unknown") == "heic"
        || lowerString (m.format.getD "unknown") == "heif") = true
    · simp [hh]
    · simp [hh]

/-- C6: the claim says a failing face-detection provider call yields a
rejection whose reason list contains the face-detection-unavailable reason.
In the code `detectFaces` catches the provider error and returns faceCount
0, so the result is indeed a rejection, but its reason is the no-face
reason; the catch in `validateImage` that would push the unavailable reason
is unreachable. -/
theorem provider_error_rejects_with_noface_reason :
    (validateImage defaultImageConfig shaFixed faceErrEnv [1, 2, 3]).isValid = false ∧
    VReason.noFace ∈ (validateImage defaultImageConfig shaFixed faceErrEnv [1, 2, 3]).errors ∧
    VReason.faceDetectionUnavailable ∉
      (validateImage defaultImageConfig shaFixed faceErrEnv [1, 2, 3]).errors := by
  decide

/-- C7: the claim says a failing sharpness computation assumes a passing
score and never causes a blur rejection. In the code `calculateBlurScore`
catches internally and returns 0, which is below the threshold 150, so the
buffer is rejected with the blurry reason; the catch in `validateImage`
that would assume the score 150 is unreachable. -/
theorem blur_compute_error_causes_blurry_rejection :
    (validateImage defaultImageConfig shaFixed blurErrEnv [1, 2, 3]).isValid = false ∧
    VReason.blurry ∈ (validateImage defaultImageConfig shaFixed blurErrEnv [1, 2, 3]).errors ∧
    (validateImage defaultImageConfig shaFixed blurErrEnv [1, 2, 3]).metadata.blurScore =
      some 0 := by
  decide

/-- C8: with no environment overrides the default job options carry
attempts 3 and an exponential backoff with base delay 1000 ms; under the
spec-modelled retry loop the delays before the two retries are 1000 and
2000 ms, a job failing every attempt is not yet terminal after 2 attempts
and becomes terminal-failed after exactly 3. -/
theorem default_job_options_retry_policy :
    (defaultJobOptions none none).attempts = some 3 ∧
    (defaultJobOptions none none).backoff.kind = "exponential" ∧
    (defaultJobOptions none none).backoff.delay = some 1000 ∧
    retryDelay 1000 1 = 1000 ∧ retryDelay 1000 2 = 2000 ∧
    (runFailures 3 2).terminalFailed = false ∧
    (runFailures 3 3).terminalFailed = true ∧
    (runFailures 3 3).attemptsMade = 3 := by
  decide

/-- C9: when the database lookup inside the duplicate check throws,
`checkForDuplicates` returns false instead of propagating the error. -/
theorem checkForDuplicates_false_on_lookup_error
    (db : String → Except String (Option String)) (hash e : String)
    (h : db hash = .error e) : checkForDuplicates db hash = false := by
  unfold checkForDuplicates
  rw [h]

/-- Witness for C9 at a lookup that always throws. -/
theorem checkForDuplicates_false_on_lookup_error_witness :
    (fun _ : String => (Except.error "db down" : Except String (Option String))) "h1" =
        Except.error "db down" ∧
    checkForDuplicates (fun _ => Except.error "db down") "h1" = false :=
  ⟨rfl, checkForDuplicates_false_on_lookup_error (fun _ => Except.error "db down") "h1"
    "db down" rfl⟩

/-- C3 counterexample: the claim says an append with an unknown supplied
sessionId, or to a terminal session, fails with NotFound and mutates
nothing. Appending with the unknown id ghost on the empty state creates a
fresh session and stores the chunk, and appending to the COMPLETED session
t1 stores the chunk and overwrites its progress. -/
theorem unknown_or_terminal_append_mutates_state :
    (uploadChunkCore emptyDb reqGhost "fresh1").state.sessions.length = 1 ∧
    (uploadChunkCore emptyDb reqGhost "fresh1").state.findSession "fresh1" =
      some { id := "fresh1", filename := "a.png", totalChunks := 3,
             uploadedChunks := 2, status := .inProgress } ∧
    (uploadChunkCore emptyDb reqGhost "fresh1").state.getChunks "fresh1" =
      some [none, some [7, 7], none] ∧
    (uploadChunkCore terminalDb reqToT1 "f2").state.findSession "t1" =
      some { id := "t1", filename := "b.png", totalChunks := 2,
             uploadedChunks := 2, status := .completedS } ∧
    (uploadChunkCore terminalDb reqToT1 "f2").state.getChunks "t1" =
      some [none, some [7, 7], none] := by
  decide

/-- C3 amended: an append with a supplied sessionId never fails with
NotFound and performs its mutations regardless of the session status: when
the id is unknown a fresh IN_PROGRESS session is created and the chunk is
stored under the fresh id; when the id names an existing session, terminal
or not, the chunk is stored and uploadedChunks is set to chunkIndex + 1
with the status left untouched. -/
theorem append_unknown_or_terminal_mutates (st : DbState) (r : ChunkRequest)
    (fid sid : String) (hs : r.sessionId = some sid) :
    (st.findSession sid = none → st.findSession fid = none → st.getChunks fid = none →
      (uploadChunkCore st r fid).state.findSession fid =
        some { id := fid, filename := r.filename, totalChunks := r.totalChunks.toNat,
               uploadedChunks := r.chunkIndex.toNat + 1, status := .inProgress } ∧
      (uploadChunkCore st r fid).state.getChunks fid =
        some (jsArraySet (newSparseArray r.totalChunks.toNat) r.chunkIndex.toNat
          r.chunkData)) ∧
    (∀ s, st.findSession sid = some s → s.status.isTerminal = true →
      (uploadChunkCore st r fid).state.findSession sid =
        some { s with uploadedChunks := r.chunkIndex.toNat + 1 } ∧
      (uploadChunkCore st r fid).state.getChunks sid =
        some (jsArraySet ((st.getChunks sid).getD (newSparseArray r.totalChunks.toNat))
          r.chunkIndex.toNat r.chunkData)) := by
  constructor
  · intro h1 h2 h3
    have hrs : resolveSession st r fid =
        ({ id := fid, filename := r.filename, totalChunks := r.totalChunks.toNat,
           uploadedChunks := 0, status := .inProgress },
         { st with sessions := st.sessions ++
            [{ id := fid, filename := r.filename, totalChunks := r.totalChunks.toNat,
               uploadedChunks := 0, status := .inProgress }] }) := by
      simp only [resolveSession, hs, h1]
    constructor
    · rw [show (uploadChunkCore st r fid).state =
          ((storeChunk (resolveSession st r fid).2 (resolveSession st r fid).1.id
            r.totalChunks.toNat r.chunkIndex.toNat r.chunkData).1.updateSession
            (resolveSession st r fid).1.id
            fun s => { s with uploadedChunks := r.chunkIndex.toNat + 1 }) from rfl]
      rw [hrs]
      dsimp only
      rw [findSession_updateSession _ fid
        (fun x => { x with uploadedChunks := r.chunkIndex.toNat + 1 }) fun x => rfl]
      rw [findSession_eq, storeChunk_sessions]
      dsimp only
      rw [List.find?_append, show st.sessions.find?
        (fun s => s.id == fid) = none from h2, Option.none_or]
      rw [List.find?_cons]
      simp
    · rw [show (uploadChunkCore st r fid).state =
          ((storeChunk (resolveSession st r fid).2 (resolveSession st r fid).1.id
            r.totalChunks.toNat r.chunkIndex.toNat r.chunkData).1.updateSession
            (resolveSession st r fid).1.id
            fun s => { s with uploadedChunks := r.chunkIndex.toNat + 1 }) from rfl]
      rw [hrs]
      dsimp only
      rw [getChunks_updateSession, storeChunk_getChunks, storeChunk_chunks]
      rw [show DbState.getChunks { st with sessions := st.sessions ++
            [{ id := fid, filename := r.filename, totalChunks := r.totalChunks.toNat,
               uploadedChunks := 0, status := .inProgress }] } fid =
          st.getChunks fid from rfl, h3]
      rfl
  · intro s hfound hterm
    have hfind : List.find? (fun x => x.id == sid) st.sessions = some s := hfound
    have hb := List.find?_some hfind
    have hid : s.id = sid := eq_of_beq hb
    subst hid
    have hrs : resolveSession st r fid = (s, st) := by
      simp only [resolveSession, hs, hfound]
    constructor
    · rw [show (uploadChunkCore st r fid).state =
          ((storeChunk (resolveSession st r fid).2 (resolveSession st r fid).1.id
            r.totalChunks.toNat r.chunkIndex.toNat r.chunkData).1.updateSession
            (resolveSession st r fid).1.id
            fun x => { x with uploadedChunks := r.chunkIndex.toNat + 1 }) from rfl]
      rw [hrs]
      dsimp only
      rw [findSession_updateSession _ s.id
        (fun x => { x with uploadedChunks := r.chunkIndex.toNat + 1 }) fun x => rfl]
      rw [findSession_eq, storeChunk_sessions]
      rw [show st.sessions.find? (fun x => x.id == s.id) = some s from hfound]
      rfl
    · rw [show (uploadChunkCore st r fid).state =
          ((storeChunk (resolveSession st r fid).2 (resolveSession st r fid).1.id
            r.totalChunks.toNat r.chunkIndex.toNat r.chunkData).1.updateSession
            (resolveSession st r fid).1.id
            fun x => { x with uploadedChunks := r.chunkIndex.toNat + 1 }) from rfl]
      rw [hrs]
      dsimp only
      rw [getChunks_updateSession, storeChunk_getChunks, storeChunk_chunks]

/-- Witness for C3 amended at the ghost append on the empty state and at an
append to the COMPLETED session t1. -/
theorem append_unknown_or_terminal_mutates_witness :
    reqGhost.sessionId = some "ghost" ∧
    emptyDb.findSession "ghost" = none ∧
    ((uploadChunkCore emptyDb reqGhost "fresh1").state.findSession "fresh1" =
        some { id := "fresh1", filename := "a.png", totalChunks := 3,
               uploadedChunks := 2, status := .inProgress } ∧
      (uploadChunkCore emptyDb reqGhost "fresh1").state.getChunks "fresh1" =
        some (jsArraySet (newSparseArray 3) 1 [7, 7])) ∧
    reqToT1.sessionId = some "t1" ∧
    terminalDb.findSession "t1" =
      some { id := "t1", filename := "b.png", totalChunks := 2,
             uploadedChunks := 1, status := .completedS } ∧
    ((uploadChunkCore terminalDb reqToT1 "f2").state.findSession "t1" =
        some { id := "t1", filename := "b.png", totalChunks := 2,
               uploadedChunks := 2, status := .completedS } ∧
      (uploadChunkCore terminalDb reqToT1 "f2").state.getChunks "t1" =
        some (jsArraySet ((terminalDb.getChunks "t1").getD (newSparseArray 3)) 1 [7, 7])) :=
  ⟨rfl, rfl,
   (append_unknown_or_terminal_mutates emptyDb reqGhost "fresh1" "ghost" rfl).1
     rfl rfl rfl,
   rfl, rfl,
   (append_unknown_or_terminal_mutates terminalDb reqToT1 "f2" "t1" rfl).2
     { id := "t1", filename := "b.png", totalChunks := 2,
       uploadedChunks := 1, status := .completedS } rfl rfl⟩

/-- C4 counterexample: the claim says an append whose chunkIndex lies
outside [0, totalChunks) is rejected with no state mutation. The request
with chunkIndex 5 and totalChunks 2 passes the middleware, runs the
controller, is stored (extending the chunk array), and records
uploadedChunks 6, exceeding totalChunks. -/
theorem out_of_range_chunkIndex_accepted_and_stored :
    validateChunkUpload reqIdx5of2 = true ∧
    (processChunkRequest emptyDb reqIdx5of2 "s2").2 = true ∧
    ((processChunkRequest emptyDb reqIdx5of2 "s2").1.findSession "s2").map
        UploadSession.uploadedChunks = some 6 ∧
    (processChunkRequest emptyDb reqIdx5of2 "s2").1.getChunks "s2" =
      some [none, none, none, none, none, some [1]] := by
  decide

/-- C4 amended: only the lower bound of chunkIndex is validated: a negative
chunkIndex is rejected by the middleware with no state mutation, while
validation is insensitive to the value of any non-negative chunkIndex (no
upper bound against totalChunks is checked), so an index at or above
totalChunks passes and is stored. -/
theorem chunkIndex_validation_lower_bound_only (st : DbState) (r : ChunkRequest)
    (fid : String) :
    (r.chunkIndex < 0 → validateChunkUpload r = false ∧
      processChunkRequest st r fid = (st, false)) ∧
    (∀ i j : Int, 0 ≤ i → 0 ≤ j →
      validateChunkUpload { r with chunkIndex := i } =
        validateChunkUpload { r with chunkIndex := j }) := by
  constructor
  · intro hneg
    have hv : validateChunkUpload r = false := by
      unfold validateChunkUpload
      have hn : ¬ ((0 : Int) ≤ r.chunkIndex) := not_le.mpr hneg
      simp [hn]
    refine ⟨hv, ?_⟩
    unfold processChunkRequest
    rw [hv]
    rfl
  · intro i j hi hj
    unfold validateChunkUpload
    simp [hi, hj]

/-- Witness for C4 amended at a negative index and at the indices 5 and 99
for a totalChunks of 2. -/
theorem chunkIndex_validation_lower_bound_only_witness :
    reqNegIdx.chunkIndex < 0 ∧
    (validateChunkUpload reqNegIdx = false ∧
      processChunkRequest emptyDb reqNegIdx "w1" = (emptyDb, false)) ∧
    (0 : Int) ≤ 5 ∧ (0 : Int) ≤ 99 ∧
    validateChunkUpload { reqIdx5of2 with chunkIndex := 5 } =
      validateChunkUpload { reqIdx5of2 with chunkIndex := 99 } :=
  ⟨by decide,
   (chunkIndex_validation_lower_bound_only emptyDb reqNegIdx "w1").1 (by decide),
   by decide, by decide,
   (chunkIndex_validation_lower_bound_only emptyDb reqIdx5of2 "w1").2 5 99
     (by decide) (by decide)⟩

/-- C10 counterexample: the claim says every upload with MIME image/heic or
a .heic filename skips the validation pipeline and commits a VALIDATED
record. For the file declared image/heic but named photo.jpg, when the
conversion returns a distinct buffer the final MIME type becomes image/jpeg
and the full validation pipeline runs (here rejecting the buffer), so
nothing is committed. -/
theorem heic_mime_distinct_conversion_runs_validation :
    (uploadImage defaultImageConfig shaFixed noDupDb distinctConvertEnv
        fileHeicMimeJpgName false 5).ranFullValidation = true ∧
    (uploadImage defaultImageConfig shaFixed noDupDb distinctConvertEnv
        fileHeicMimeJpgName false 5).response =
      .validationFailed [VReason.noFace] := by
  decide

/-- C10 amended: when the original filename (lowercased) ends in .heic, or
the MIME type is image/heic and the conversion attempt did not produce a
distinct buffer, the upload skips the validation pipeline and (with the
blob upload succeeding) commits a record with status VALIDATED, placeholder
width 1920 and height 1080, and no hash, sharpness or face metadata. -/
theorem heic_skip_commits_placeholder_record (cfg : ImageConfig) (sha : Bytes → String)
    (db : String → Except String (Option String)) (env : UploadEnv) (file : UploadFile)
    (q : Bool) (ts : Nat)
    (hcase : strEndsWith (lowerString file.originalname) ".heic" = true ∨
      (file.mimetype = "image/heic" ∧ convertDistinct env.convert = false))
    (hs3 : env.s3Upload = .ok ()) :
    (uploadImage cfg sha db env file q ts).ranFullValidation = false ∧
    ∃ rec, (uploadImage cfg sha db env file q ts).response = .created rec ∧
      rec.status = .validatedS ∧ rec.width = 1920 ∧ rec.height = 1080 ∧
      rec.hash = none ∧ rec.blurScore = none ∧ rec.faceCount = none ∧
      rec.faceSize = none := by
  have hskip : skipAdvanced file (afterConversion file env.convert q).2 = true := by
    rcases hcase with hend | ⟨hm, hcd⟩
    · unfold skipAdvanced
      rw [hend, Bool.or_true]
    · have hmime : (afterConversion file env.convert q).2 = file.mimetype := by
        unfold afterConversion
        have ht : heicTrigger file = true := by
          unfold heicTrigger
          rw [hm]
          simp
        rw [if_pos ht]
        cases hc : env.convert with
        | error e => rfl
        | ok o =>
          cases o with
          | none => rfl
          | some b =>
            rw [hc] at hcd
            simp [convertDistinct] at hcd
      unfold skipAdvanced
      rw [hmime, hm]
      simp
  simp only [uploadImage, hskip, hs3]
  simp

/-- Witness for C10 amended at the .heic-named file with a throwing
conversion. -/
theorem heic_skip_commits_placeholder_record_witness :
    (strEndsWith (lowerString fileHeicName.originalname) ".heic" = true ∨
      (fileHeicName.mimetype = "image/heic" ∧
        convertDistinct failConvertEnv.convert = false)) ∧
    failConvertEnv.s3Upload = .ok () ∧
    ((uploadImage defaultImageConfig shaFixed noDupDb failConvertEnv fileHeicName
        false 9).ranFullValidation = false ∧
      ∃ rec, (uploadImage defaultImageConfig shaFixed noDupDb failConvertEnv fileHeicName
          false 9).response = .created rec ∧
        rec.status = .validatedS ∧ rec.width = 1920 ∧ rec.height = 1080 ∧
        rec.hash = none ∧ rec.blurScore = none ∧ rec.faceCount = none ∧
        rec.faceSize = none) :=
  ⟨Or.inl (by decide), rfl,
   heic_skip_commits_placeholder_record defaultImageConfig shaFixed noDupDb
     failConvertEnv fileHeicName false 9 (Or.inl (by decide)) rfl⟩

end ProtoAI
